import Mathlib

/- Verification development for the QR code research submission pipeline.
   The definitions below are a shallow embedding of the Python sources:
   classifier.py (QRClassifier), database.py (DatabaseManager and the two
   ORM models) and app.py (process_qr_submission).  Machine floats are
   modelled as rationals; on every literal appearing in the code and in
   the claims (0.0, 0.5, 0.69, 0.7, 0.71, 1.0) the float comparisons of
   the source agree with the rational ones.  External collaborators
   (Twilio, Playwright, the Anthropic API, validators.url, SHA-256) are
   modelled at their interface boundary: their outputs are inputs of the
   embedded functions. -/

/- ===== Classifier (classifier.py) ===== -/

/-- Structured classification result: the dict built by
QRClassifier._parse_classification and QRClassifier.classify. -/
structure ClassificationResult where
  category : String
  confidence : ℚ
  is_malicious : Bool
  reasoning : String
deriving DecidableEq, Repr

/-- Keys of QRClassifier.CATEGORIES (classifier.py lines 18-30); Python
membership on the dict tests these keys. -/
def CATEGORIES : List String :=
  ["promotional", "informational", "business", "personal", "transactional",
   "social", "event", "scam", "malicious", "shortened_url", "other"]

/-- Whitespace test matching Python str.strip for the characters that occur
in classifier responses. -/
def isSpaceChar (c : Char) : Bool :=
  c == ' ' || c == '\t' || c == '\n' || c == '\r'

/-- Model of Python str.strip on a character list. -/
def trimChars (s : List Char) : List Char :=
  ((s.dropWhile isSpaceChar).reverse.dropWhile isSpaceChar).reverse

/-- Model of Python str.lower on a character list (ASCII). -/
def lowerChars (s : List Char) : List Char :=
  s.map Char.toLower

/-- Model of Python str.split on a newline character. -/
def splitLinesAux : List Char → List Char → List (List Char)
  | [], acc => [acc.reverse]
  | c :: cs, acc =>
    if c == '\n' then acc.reverse :: splitLinesAux cs []
    else splitLinesAux cs (c :: acc)

/-- Split a character list into lines, as response_text.split of a newline
does in _parse_classification. -/
def split_lines (s : List Char) : List (List Char) :=
  splitLinesAux s []

/-- All characters are decimal digits. -/
def isDigits (s : List Char) : Bool :=
  s.all Char.isDigit

/-- Numeric value of a digit list. -/
def digitsVal (s : List Char) : Nat :=
  s.foldl (fun a c => a * 10 + (c.toNat - 48)) 0

/-- Magnitude part of Python float parsing, restricted to plain decimal
literals (the shapes a CONFIDENCE line can carry): digits with at most one
point and at least one digit overall.  Anything else fails, as float()
raises ValueError on it. -/
def parseMagnitude? (s : List Char) : Option ℚ :=
  let ip := s.takeWhile (fun c => c != '.')
  let rest := s.dropWhile (fun c => c != '.')
  match rest with
  | [] => if !ip.isEmpty && isDigits ip then some (digitsVal ip) else none
  | _ :: fp =>
    if (!ip.isEmpty || !fp.isEmpty) && isDigits ip && isDigits fp then
      some (mkRat (digitsVal ip * 10 ^ fp.length + digitsVal fp) (10 ^ fp.length))
    else none

/-- Model of Python float(conf_str) on decimal literals with an optional
sign; none models the ValueError raised on an unparseable string. -/
def parseFloatChars? (s : List Char) : Option ℚ :=
  match s with
  | [] => none
  | c :: rest =>
    if c == '+' then parseMagnitude? rest
    else if c == '-' then (parseMagnitude? rest).map (fun q => -q)
    else parseMagnitude? (c :: rest)

/-- The result dict as initialised at the top of _parse_classification
(classifier.py lines 151-156). -/
def initial_result (response_text : String) : ClassificationResult :=
  { category := "other", confidence := mkRat 1 2, is_malicious := false,
    reasoning := response_text }

/-- The line loop of _parse_classification (classifier.py lines 158-169).
Python splits each matching line at its first colon, which for a line that
starts with the keyword is exactly the keyword's length; float() raising on
an unparseable CONFIDENCE value aborts the whole loop, modelled by none. -/
def parse_lines : List (List Char) → ClassificationResult → Option ClassificationResult
  | [], acc => some acc
  | l :: rest, acc =>
    let line := trimChars l
    if "CATEGORY:".data.isPrefixOf line then
      parse_lines rest { acc with category := String.mk (lowerChars (trimChars (line.drop 9))) }
    else if "CONFIDENCE:".data.isPrefixOf line then
      match parseFloatChars? (trimChars (line.drop 11)) with
      | some c => parse_lines rest { acc with confidence := c }
      | none => none
    else if "MALICIOUS:".data.isPrefixOf line then
      let m := String.mk (lowerChars (trimChars (line.drop 10)))
      parse_lines rest { acc with is_malicious := m == "yes" || m == "true" }
    else if "REASONING:".data.isPrefixOf line then
      parse_lines rest { acc with reasoning := String.mk (trimChars (line.drop 10)) }
    else parse_lines rest acc

/-- The validation block of _parse_classification (classifier.py lines
171-176): an unknown category falls back to the label other, and a
confidence outside zero to one falls back to one half. -/
def validate_classification (r : ClassificationResult) : ClassificationResult :=
  let r1 := if r.category ∈ CATEGORIES then r else { r with category := "other" }
  if 0 ≤ r1.confidence ∧ r1.confidence ≤ 1 then r1
  else { r1 with confidence := mkRat 1 2 }

/-- QRClassifier._parse_classification (classifier.py lines 147-187): strip
the response, loop over its lines, then validate; any exception inside the
try block (the float ValueError) yields the error record of the except
branch. -/
def parse_classification (response_text : String) : ClassificationResult :=
  match parse_lines (split_lines (trimChars response_text.data)) (initial_result response_text) with
  | some r => validate_classification r
  | none =>
    { category := "error", confidence := 0, is_malicious := false,
      reasoning := "Failed to parse: " ++ String.mk (response_text.data.take 200) }

/-- QRClassifier.classify (classifier.py lines 38-75) at its interface: the
API transport either raises (Except.error, caught and turned into the error
record) or returns a response text that is parsed. -/
def classify (api_response : Except String String) : ClassificationResult :=
  match api_response with
  | Except.error e =>
    { category := "error", confidence := 0, is_malicious := false,
      reasoning := "Classification failed: " ++ e }
  | Except.ok text => parse_classification text

/- ===== Database (database.py) ===== -/

/-- Row of the qr_codes table (database.py lines 15-40).  The wall-clock
first_seen column is omitted: it is never read by the pipeline.  Column
defaults of the schema appear as field defaults. -/
structure QRCodeRec where
  id : Nat
  content_hash : String
  qr_content : String
  times_found : Nat := 1
  classification : Option String := none
  confidence_score : Option ℚ := none
  is_malicious : Bool := false
  manual_review : Bool := false
  destination_url : Option String := none
  final_url : Option String := none
  site_title : Option String := none
deriving DecidableEq, Repr

/-- Row of the qr_sightings table (database.py lines 43-71). -/
structure SightingRec where
  id : Nat
  qr_code_id : Nat
  latitude : Option ℚ := none
  longitude : Option ℚ := none
  location_accuracy : Option String := none
  timestamp : Nat := 0
  image_path : Option String := none
  device_model : Option String := none
  submission_phone : Option String := none
  submission_method : String := "sms"
  screenshot_path : Option String := none
deriving DecidableEq, Repr

/-- State of the SQLite database behind DatabaseManager: the two tables plus
the id counters of their integer primary keys. -/
structure DBState where
  qr_codes : List QRCodeRec
  sightings : List SightingRec
  next_qr_id : Nat
  next_sighting_id : Nat
deriving DecidableEq, Repr

/-- The freshly initialised database. -/
def DBState.empty : DBState :=
  { qr_codes := [], sightings := [], next_qr_id := 0, next_sighting_id := 0 }

/-- Increment times_found of the first row matching the hash, the mutation
committed by the duplicate branch of find_or_create_qr.  The unique index
on content_hash guarantees at most one row matches. -/
def increment_times_found (content_hash : String) : List QRCodeRec → List QRCodeRec
  | [] => []
  | r :: rs =>
    if r.content_hash == content_hash then
      { r with times_found := r.times_found + 1 } :: rs
    else
      r :: increment_times_found content_hash rs

/-- DatabaseManager.find_or_create_qr (database.py lines 89-114).  SHA-256
(hash_qr_content) is an external pure digest; it enters as the hash
parameter.  Returns the record as the session sees it after commit together
with the is_duplicate flag and the new database state. -/
def find_or_create_qr (hash : String → String) (db : DBState) (qr_content : String) :
    QRCodeRec × Bool × DBState :=
  let content_hash := hash qr_content
  match db.qr_codes.find? (fun r => r.content_hash == content_hash) with
  | some qr =>
    ({ qr with times_found := qr.times_found + 1 }, true,
     { db with qr_codes := increment_times_found content_hash db.qr_codes })
  | none =>
    let qr : QRCodeRec :=
      { id := db.next_qr_id, content_hash := content_hash, qr_content := qr_content }
    (qr, false,
     { db with qr_codes := db.qr_codes ++ [qr], next_qr_id := db.next_qr_id + 1 })

/-- DatabaseManager.add_sighting (database.py lines 116-125): a pure insert
of one sighting row. -/
def add_sighting (db : DBState) (qr_code_id : Nat) (latitude longitude : Option ℚ)
    (location_accuracy : Option String) (timestamp : Nat) (image_path : String)
    (device_model : Option String) (submission_phone : String) :
    SightingRec × DBState :=
  let s : SightingRec :=
    { id := db.next_sighting_id, qr_code_id := qr_code_id, latitude := latitude,
      longitude := longitude, location_accuracy := location_accuracy,
      timestamp := timestamp, image_path := some image_path,
      device_model := device_model, submission_phone := some submission_phone,
      submission_method := "sms" }
  let db' : DBState :=
    { db with sightings := db.sightings ++ [s],
              next_sighting_id := db.next_sighting_id + 1 }
  (s, db')

/-- DatabaseManager.update_qr_classification (database.py lines 127-139):
writes category, confidence and the malicious flag on the row with the
given id, and derives manual_review from the fresh confidence against the
literal threshold 0.7 of the source. -/
def update_qr_classification (db : DBState) (qr_code_id : Nat) (classification : String)
    (confidence : ℚ) (is_malicious : Bool) : DBState :=
  { db with qr_codes := db.qr_codes.map (fun r =>
      if r.id == qr_code_id then
        { r with classification := some classification,
                 confidence_score := some confidence,
                 is_malicious := is_malicious,
                 manual_review := decide (confidence < mkRat 7 10) }
      else r) }

/-- DatabaseManager.update_qr_destination (database.py lines 141-152). -/
def update_qr_destination (db : DBState) (qr_code_id : Nat)
    (destination_url final_url site_title : Option String) : DBState :=
  { db with qr_codes := db.qr_codes.map (fun r =>
      if r.id == qr_code_id then
        { r with destination_url := destination_url, final_url := final_url,
                 site_title := site_title }
      else r) }

/-- The raw update statement of app.py lines 199-208 attaching a screenshot
path to one sighting row. -/
def attach_screenshot (db : DBState) (sighting_id : Nat) (path : String) : DBState :=
  { db with sightings := db.sightings.map (fun s =>
      if s.id == sighting_id then { s with screenshot_path := some path } else s) }

/-- Sequential resolution of one payload n times against the store, the
scenario of the dedup idempotence property: returns the final state and the
list of is_duplicate flags in call order, starting from the empty store. -/
def resolve_iter (hash : String → String) (p : String) : Nat → DBState × List Bool
  | 0 => (DBState.empty, [])
  | n + 1 =>
    let prev := resolve_iter hash p n
    let step := find_or_create_qr hash prev.1 p
    (step.2.2, prev.2 ++ [step.2.1])

/- ===== Orchestrator (app.py, process_qr_submission) ===== -/

/-- The should_analyze expression of app.py line 169. -/
def should_analyze (debug_mode is_duplicate skip_for_duplicates : Bool) : Bool :=
  debug_mode || (!is_duplicate || !skip_for_duplicates)

/-- The guard of app.py line 171: full analysis (browsing plus
classification) runs when should_analyze holds and validators.url accepts
the payload; isUrl models the validators.url verdict. -/
def runs_full_analysis (isUrl debug_mode is_duplicate skip_for_duplicates : Bool) : Bool :=
  should_analyze debug_mode is_duplicate skip_for_duplicates && isUrl

/-- Modelled from the spec's words, for comparison with the code: the truth
table the claim states, namely that analysis always runs when debugMode is
true regardless of duplicate status, and otherwise runs exactly when the
payload is a well-formed URL and (isDuplicate is false or
skipDuplicatesPolicy is false). -/
def claimed_runs_analysis (isUrl debug_mode is_duplicate skip_for_duplicates : Bool) : Bool :=
  if debug_mode then true
  else isUrl && (!is_duplicate || !skip_for_duplicates)

/-- EXIF location as produced by the image processor collaborator. -/
structure Location where
  latitude : ℚ
  longitude : ℚ
  accuracy : String
deriving DecidableEq, Repr

/-- The fields of the SafeBrowser.navigate_and_capture result dict that
process_qr_submission reads; absent dict keys are none. -/
structure BrowseResult where
  success : Bool
  destination_url : Option String := none
  final_url : Option String := none
  title : Option String := none
  page_preview : Option String := none
  screenshot_path : Option String := none
  error : Option String := none
deriving DecidableEq, Repr

/-- The MockQRCode object built in the debug branch of
process_qr_submission (app.py lines 129-143), with the field defaults of
its constructor. -/
structure MockQRCode where
  id : String := "debug"
  qr_content : String
  content_hash : String
  times_found : Nat := 0
  classification : Option String := none
  confidence_score : Option ℚ := none
  is_malicious : Bool := false
  manual_review : Bool := false
  destination_url : Option String := none
  final_url : Option String := none
  site_title : Option String := none
deriving DecidableEq, Repr

/-- The value of the qr_code key of the result dict: a refreshed database
row in normal mode, the in-memory placeholder in debug mode. -/
inductive ResultQR where
  | persistent (r : QRCodeRec)
  | mock (m : MockQRCode)
deriving DecidableEq, Repr

/-- The result dict of process_qr_submission; keys absent from a given
return site are none. -/
structure SubmissionResult where
  success : Bool
  error : Option String := none
  qr_code : Option ResultQR := none
  is_duplicate : Option Bool := none
  sighting : Option SightingRec := none
  location : Option Location := none
  browse_result : Option BrowseResult := none
  classification : Option ClassificationResult := none
  debug_mode : Option Bool := none
deriving DecidableEq, Repr

/-- Python truthiness of an optional string, as tested on the
screenshot_path entry at app.py line 198. -/
def isTruthy : Option String → Bool
  | none => false
  | some s => !s.data.isEmpty

/-- The debug in-memory classification writes of app.py lines 221-226,
including the manual_review derivation against the literal 0.7. -/
def apply_classification_to_mock (m : MockQRCode) (cr : ClassificationResult) : MockQRCode :=
  { m with classification := some cr.category,
           confidence_score := some cr.confidence,
           is_malicious := cr.is_malicious,
           manual_review := decide (cr.confidence < mkRat 7 10) }

/-- The success return dict of app.py lines 250-259 in normal mode, with
the qr_code value refreshed from the database (app.py lines 244-248). -/
def mk_complete_result (db : DBState) (qr_id : Nat) (dup : Bool) (sighting : SightingRec)
    (location : Option Location) (browse_result : Option BrowseResult)
    (classification : Option ClassificationResult) : SubmissionResult :=
  { success := true,
    qr_code := (db.qr_codes.find? (fun r => r.id == qr_id)).map ResultQR.persistent,
    is_duplicate := some dup,
    sighting := some sighting,
    location := location,
    browse_result := browse_result,
    classification := classification,
    debug_mode := some false }

/-- The success return dict of app.py lines 250-259 in debug mode. -/
def mk_debug_result (m : MockQRCode) (location : Option Location)
    (browse_result : Option BrowseResult)
    (classification : Option ClassificationResult) : SubmissionResult :=
  { success := true,
    qr_code := some (ResultQR.mock m),
    is_duplicate := some false,
    sighting := none,
    location := location,
    browse_result := browse_result,
    classification := classification,
    debug_mode := some true }

/-- Classification tail of the normal-mode analysis branch (app.py lines
211-234): when a classifier is configured the (possibly error) result is
written through update_qr_classification, otherwise the step is skipped. -/
def classify_step_normal (db : DBState) (qr_id : Nat) (dup : Bool) (s : SightingRec)
    (location : Option Location) (browse : BrowseResult) (classifier_enabled : Bool)
    (cr : ClassificationResult) : SubmissionResult × DBState :=
  if classifier_enabled then
    let db5 := update_qr_classification db qr_id cr.category cr.confidence cr.is_malicious
    (mk_complete_result db5 qr_id dup s location (some browse) (some cr), db5)
  else
    (mk_complete_result db qr_id dup s location (some browse) none, db)

/-- Normal-mode path of process_qr_submission (app.py lines 146-259):
fingerprint resolution, sighting insert, the analysis decision, then on a
successful visit the destination update, the screenshot attach (whose
storage failure, modelled by attach_raises, is caught only by the
pipeline-level handler at app.py lines 261-268, which returns the failure
dict) and the classification step.  browse is what navigate_and_capture
returns if invoked, cr what classifier.classify returns if invoked. -/
def process_normal (hash : String → String) (db : DBState) (qr_content : String)
    (isUrl : Bool) (location : Option Location) (timestamp : Nat) (image_path : String)
    (from_number : String) (device : Option String) (skip_dup : Bool)
    (browse : BrowseResult) (classifier_enabled : Bool) (cr : ClassificationResult)
    (attach_raises : Option String) : SubmissionResult × DBState :=
  let fc := find_or_create_qr hash db qr_content
  let qr := fc.1
  let is_duplicate := fc.2.1
  let db1 := fc.2.2
  let as := add_sighting db1 qr.id (location.map (fun l => l.latitude))
      (location.map (fun l => l.longitude)) (location.map (fun l => l.accuracy))
      timestamp image_path device from_number
  let sighting := as.1
  let db2 := as.2
  if runs_full_analysis isUrl false is_duplicate skip_dup then
    if browse.success then
      let db3 := update_qr_destination db2 qr.id browse.destination_url
          browse.final_url browse.title
      if isTruthy browse.screenshot_path then
        match attach_raises with
        | some err => ({ success := false, error := some err }, db3)
        | none =>
          let db4 := attach_screenshot db3 sighting.id (browse.screenshot_path.getD "")
          classify_step_normal db4 qr.id is_duplicate sighting location browse
            classifier_enabled cr
      else
        classify_step_normal db3 qr.id is_duplicate sighting location browse
          classifier_enabled cr
    else
      (mk_complete_result db2 qr.id is_duplicate sighting location (some browse) none, db2)
  else
    (mk_complete_result db2 qr.id is_duplicate sighting location none none, db2)

/-- Debug-mode path of process_qr_submission (app.py lines 124-145 and the
debug branches of the analysis section): the database is never touched; the
placeholder carries destination and classification results in memory.  The
debug branch fixes is_duplicate to false before the decision. -/
def process_debug (hash : String → String) (db : DBState) (qr_content : String)
    (isUrl : Bool) (location : Option Location) (skip_dup : Bool)
    (browse : BrowseResult) (classifier_enabled : Bool) (cr : ClassificationResult) :
    SubmissionResult × DBState :=
  let m0 : MockQRCode := { qr_content := qr_content, content_hash := hash qr_content }
  if runs_full_analysis isUrl true false skip_dup then
    if browse.success then
      let m1 := { m0 with destination_url := browse.destination_url,
                          final_url := browse.final_url,
                          site_title := browse.title }
      if classifier_enabled then
        (mk_debug_result (apply_classification_to_mock m1 cr) location (some browse) (some cr), db)
      else
        (mk_debug_result m1 location (some browse) none, db)
    else
      (mk_debug_result m0 location (some browse) none, db)
  else
    (mk_debug_result m0 location none none, db)

/-- process_qr_submission (app.py lines 92-268) after QR decoding
succeeded, dispatching on debug_mode exactly as the source does. -/
def process_qr_submission (hash : String → String) (db : DBState) (qr_content : String)
    (isUrl : Bool) (location : Option Location) (timestamp : Nat) (image_path : String)
    (from_number : String) (device : Option String) (skip_dup : Bool)
    (browse : BrowseResult) (classifier_enabled : Bool) (cr : ClassificationResult)
    (attach_raises : Option String) (debug_mode : Bool) : SubmissionResult × DBState :=
  if debug_mode then
    process_debug hash db qr_content isUrl location skip_dup browse classifier_enabled cr
  else
    process_normal hash db qr_content isUrl location timestamp image_path from_number
      device skip_dup browse classifier_enabled cr attach_raises

/- ===== Concrete sample data for witnesses and counterexamples ===== -/

/-- An injective stand-in for the SHA-256 digest on concrete inputs. -/
def id_hash : String → String := fun s => s

/-- A stored fingerprint row used by concrete instantiations. -/
def c4_sample_qr : QRCodeRec :=
  { id := 1, content_hash := "h1", qr_content := "payload" }

/-- A one-row store used by concrete instantiations. -/
def c4_sample_db : DBState :=
  { qr_codes := [c4_sample_qr], sightings := [], next_qr_id := 2, next_sighting_id := 0 }

/-- The row of c4_sample_db after a classification update at confidence
0.69. -/
def c4_sample_updated : QRCodeRec :=
  { id := 1, content_hash := "h1", qr_content := "payload",
    classification := some "promotional", confidence_score := some (mkRat 69 100),
    is_malicious := false, manual_review := true }

/-- The fingerprint row created by the first resolution of the sample URL. -/
def c8w_qr : QRCodeRec :=
  { id := 0, content_hash := "https://example.com", qr_content := "https://example.com" }

/-- Store after that first resolution. -/
def c8w_db1 : DBState :=
  { qr_codes := [c8w_qr], sightings := [], next_qr_id := 1, next_sighting_id := 0 }

/-- The sighting row appended for the sample submission. -/
def c8w_s : SightingRec :=
  { id := 0, qr_code_id := 0, timestamp := 0, image_path := some "img.jpg",
    submission_phone := some "+15551234567" }

/-- Store after fingerprint resolution and sighting append. -/
def c8w_db2 : DBState :=
  { qr_codes := [c8w_qr], sightings := [c8w_s], next_qr_id := 1, next_sighting_id := 1 }

/-- A failed visit, as navigate_and_capture returns on timeout
(safe_browser.py lines 111-118). -/
def c8w_browse_fail : BrowseResult :=
  { success := false, error := some "Page load timeout",
    destination_url := some "https://example.com" }

/-- A successful visit with a screenshot. -/
def cx_browse : BrowseResult :=
  { success := true, destination_url := some "https://example.com",
    final_url := some "https://example.com/home", title := some "Example",
    page_preview := some "preview", screenshot_path := some "shot.png" }

/-- A well-formed classifier verdict. -/
def cx_cr : ClassificationResult :=
  { category := "business", confidence := mkRat 9 10, is_malicious := false, reasoning := "ok" }

/- ===== Theorems ===== -/

/-- C1 counterexample: the claimed truth table says analysis runs whenever
debugMode is true regardless of the other inputs, but for a non-URL payload
in debug mode the guard of app.py line 171 skips analysis: at
isUrl = false, debugMode = true, isDuplicate = true,
skipDuplicatesPolicy = true the code yields false while the claim's table
yields true. -/
theorem c1_counterexample :
    runs_full_analysis false true true true = false ∧
    claimed_runs_analysis false true true true = true := by
  decide

/-- C1 (amended): full analysis runs if and only if the payload is a
well-formed URL and (debugMode is true, or isDuplicate is false, or
skipDuplicatesPolicy is false); in particular both documented example rows
hold, and in debug mode the duplicate status is ignored while URL-shape is
still required. -/
theorem c1_decision_truth_table :
    (∀ isUrl debug_mode is_duplicate skip : Bool,
      runs_full_analysis isUrl debug_mode is_duplicate skip =
        (isUrl && (debug_mode || !is_duplicate || !skip))) ∧
    runs_full_analysis true false true true = false ∧
    runs_full_analysis true true true true = true := by
  decide

/-- Closed form of n + 1 sequential resolutions of one payload against the
empty store: a single row whose counter equals the number of calls, with
the duplicate flag false on the first call and true on all later ones. -/
theorem resolve_iter_closed (hash : String → String) (p : String) (m : Nat) :
    resolve_iter hash p (m + 1) =
      ({ qr_codes := [{ id := 0, content_hash := hash p, qr_content := p,
                        times_found := m + 1 }],
         sightings := [], next_qr_id := 1, next_sighting_id := 0 },
       false :: List.replicate m true) := by
  induction m with
  | zero =>
    rfl
  | succ k ih =>
    have hstep : resolve_iter hash p (k + 1 + 1) =
        (let prev := resolve_iter hash p (k + 1)
         let step := find_or_create_qr hash prev.1 p
         (step.2.2, prev.2 ++ [step.2.1])) := rfl
    rw [hstep, ih]
    simp [find_or_create_qr, increment_times_found, List.find?,
      List.replicate_succ']

/-- C2: dedup idempotence of the fingerprint store — resolving the same
payload n times sequentially (n at least 1, from the empty store) leaves
exactly one FingerprintRecord, its sighting counter equals n, and the
is_duplicate flag is false exactly on the first call (so isNewRecord, its
negation, is true only there); the record is created with counter 1 and
each later resolution increments it by one. -/
theorem c2_dedup_idempotence (hash : String → String) (p : String) (n : Nat)
    (h : 1 ≤ n) :
    (resolve_iter hash p n).1.qr_codes =
      [{ id := 0, content_hash := hash p, qr_content := p, times_found := n }] ∧
    (resolve_iter hash p n).2 = false :: List.replicate (n - 1) true := by
  obtain ⟨m, rfl⟩ : ∃ m, n = m + 1 := ⟨n - 1, by omega⟩
  rw [resolve_iter_closed hash p m]
  simp

/-- C2 witness: three resolutions of a concrete URL. -/
theorem c2_dedup_idempotence_witness :
    1 ≤ 3 ∧
    (resolve_iter id_hash "https://example.com" 3).1.qr_codes =
      [{ id := 0, content_hash := id_hash "https://example.com",
         qr_content := "https://example.com", times_found := 3 }] ∧
    (resolve_iter id_hash "https://example.com" 3).2 =
      false :: List.replicate 2 true :=
  ⟨by decide, c2_dedup_idempotence id_hash "https://example.com" 3 (by decide)⟩

/-- C3: debug-mode non-mutation — a submission processed with debug_mode
true returns the database exactly as it was (no new row in either table
and no stored row modified; destination and classification results live
only in the in-memory placeholder), and the result is the same
success-shaped object as in normal mode: success true, no error key, a
qr_code value, duplicate flag and debug flag present.  The result type
SubmissionResult is shared with normal mode, so the field shape agrees by
construction. -/
theorem c3_debug_non_mutation (hash : String → String) (db : DBState) (p : String)
    (isUrl : Bool) (loc : Option Location) (ts : Nat) (ip ph : String)
    (dev : Option String) (skip : Bool) (browse : BrowseResult) (ce : Bool)
    (cr : ClassificationResult) (ar : Option String) :
    (process_qr_submission hash db p isUrl loc ts ip ph dev skip browse ce cr ar true).2 = db ∧
    (process_qr_submission hash db p isUrl loc ts ip ph dev skip browse ce cr ar true).1.success = true ∧
    (process_qr_submission hash db p isUrl loc ts ip ph dev skip browse ce cr ar true).1.error = none ∧
    (process_qr_submission hash db p isUrl loc ts ip ph dev skip browse ce cr ar true).1.qr_code.isSome = true ∧
    (process_qr_submission hash db p isUrl loc ts ip ph dev skip browse ce cr ar true).1.is_duplicate = some false ∧
    (process_qr_submission hash db p isUrl loc ts ip ph dev skip browse ce cr ar true).1.debug_mode = some true := by
  have hdbg : process_qr_submission hash db p isUrl loc ts ip ph dev skip browse ce cr ar true
      = process_debug hash db p isUrl loc skip browse ce cr := rfl
  rw [hdbg]
  unfold process_debug
  repeat' split
  all_goals simp [mk_debug_result]

/-- C4: review-flag derivation — whenever a classification is applied
through update_qr_classification, the updated row's manual_review is true
exactly when the freshly supplied confidence is strictly below 0.7, and
its confidence and category are the freshly supplied values (so a second
update recomputes the flag from the new confidence and never keeps a stale
one); the in-memory debug write derives the flag by the same rule. -/
theorem c4_review_flag :
    (∀ (db : DBState) (qr_id : Nat) (cat : String) (conf : ℚ) (mal : Bool)
        (r : QRCodeRec),
      r ∈ (update_qr_classification db qr_id cat conf mal).qr_codes →
      r.id = qr_id →
      (r.manual_review = true ↔ conf < mkRat 7 10) ∧
      r.confidence_score = some conf ∧ r.classification = some cat) ∧
    (∀ (m : MockQRCode) (cr : ClassificationResult),
      ((apply_classification_to_mock m cr).manual_review = true ↔ cr.confidence < mkRat 7 10) ∧
      (apply_classification_to_mock m cr).confidence_score = some cr.confidence) := by
  constructor
  · intro db qr_id cat conf mal r hmem hid
    unfold update_qr_classification at hmem
    simp only [List.mem_map] at hmem
    obtain ⟨r0, hr0, heq⟩ := hmem
    by_cases h : r0.id = qr_id
    · subst heq
      simp [h, decide_eq_true_eq]
    · rw [if_neg (by simpa using h)] at heq
      subst heq
      exact absurd hid h
  · intro m cr
    unfold apply_classification_to_mock
    simp [decide_eq_true_eq]

/-- Concrete evaluation of the sample classification update. -/
theorem c4_sample_update_eq :
    (update_qr_classification c4_sample_db 1 "promotional" (mkRat 69 100) false).qr_codes
      = [c4_sample_updated] := by
  rfl

/-- C4 witness: a concrete update at confidence 0.69 flags the row for
review, and a concrete debug write at confidence 0.71 does not. -/
theorem c4_review_flag_witness :
    (c4_sample_updated ∈
      (update_qr_classification c4_sample_db 1 "promotional" (mkRat 69 100) false).qr_codes) ∧
    (c4_sample_updated.manual_review = true ↔ mkRat 69 100 < mkRat 7 10) ∧
    ((apply_classification_to_mock
        { qr_content := "payload", content_hash := "h1" }
        { category := "scam", confidence := mkRat 71 100, is_malicious := false,
          reasoning := "r" }).manual_review = true ↔ mkRat 71 100 < mkRat 7 10) :=
  ⟨by rw [c4_sample_update_eq]; exact List.mem_singleton.mpr rfl,
   (c4_review_flag.1 c4_sample_db 1 "promotional" (mkRat 69 100) false c4_sample_updated
      (by rw [c4_sample_update_eq]; exact List.mem_singleton.mpr rfl) (by decide)).1,
   (c4_review_flag.2 { qr_content := "payload", content_hash := "h1" }
      { category := "scam", confidence := mkRat 71 100, is_malicious := false,
        reasoning := "r" }).1⟩

/-- The destination update leaves the sighting table untouched. -/
theorem update_qr_destination_sightings (db : DBState) (qid : Nat)
    (a b c : Option String) :
    (update_qr_destination db qid a b c).sightings = db.sightings := rfl

/-- The classification update leaves the sighting table untouched. -/
theorem update_qr_classification_sightings (db : DBState) (qid : Nat) (c : String)
    (q : ℚ) (m : Bool) :
    (update_qr_classification db qid c q m).sightings = db.sightings := rfl

/-- The screenshot attach leaves the fingerprint table untouched. -/
theorem attach_screenshot_qr_codes (db : DBState) (sid : Nat) (path : String) :
    (attach_screenshot db sid path).qr_codes = db.qr_codes := rfl

/-- The sighting append leaves the fingerprint table untouched. -/
theorem add_sighting_qr_codes (db : DBState) (qid : Nat) (la lo : Option ℚ)
    (acc : Option String) (ts : Nat) (ip : String) (dev : Option String) (ph : String) :
    (add_sighting db qid la lo acc ts ip dev ph).2.qr_codes = db.qr_codes := rfl

/-- The screenshot attach preserves the identities of all sighting rows. -/
theorem attach_screenshot_sighting_ids (db : DBState) (sid : Nat) (path : String) :
    (attach_screenshot db sid path).sightings.map (fun x => x.id) =
      db.sightings.map (fun x => x.id) := by
  unfold attach_screenshot
  simp only [List.map_map]
  apply List.map_congr_left
  intro s _
  by_cases h : s.id = sid <;> simp [Function.comp, h]

/-- The destination update preserves every row's sighting counter. -/
theorem update_qr_destination_times_found (db : DBState) (qid : Nat)
    (a b c : Option String) :
    (update_qr_destination db qid a b c).qr_codes.map (fun r => r.times_found) =
      db.qr_codes.map (fun r => r.times_found) := by
  unfold update_qr_destination
  simp only [List.map_map]
  apply List.map_congr_left
  intro r _
  by_cases h : r.id = qid <;> simp [Function.comp, h]

/-- The classification update preserves every row's sighting counter. -/
theorem update_qr_classification_times_found (db : DBState) (qid : Nat) (c : String)
    (q : ℚ) (m : Bool) :
    (update_qr_classification db qid c q m).qr_codes.map (fun r => r.times_found) =
      db.qr_codes.map (fun r => r.times_found) := by
  unfold update_qr_classification
  simp only [List.map_map]
  apply List.map_congr_left
  intro r _
  by_cases h : r.id = qid <;> simp [Function.comp, h]

/-- C5 counterexample: a CONFIDENCE value that float() cannot parse is not
coerced to the neutral 0.5 — it raises inside the try block, so the whole
parse aborts into the except branch and the stored confidence is 0.0 with
category forced to the error label (the parsed category is lost too). -/
theorem c5_counterexample :
    (parse_classification "CATEGORY: business\nCONFIDENCE: high\nMALICIOUS: no").confidence = 0 ∧
    (parse_classification "CATEGORY: business\nCONFIDENCE: high\nMALICIOUS: no").category = "error" ∧
    ¬ (parse_classification "CATEGORY: business\nCONFIDENCE: high\nMALICIOUS: no").confidence = mkRat 1 2 := by
  decide

/-- C5 (amended): a numeric confidence outside zero to one is coerced to
the neutral 0.5 and an in-range numeric confidence is returned unchanged;
but a confidence that cannot be parsed as a number makes the whole parse
fail, yielding the error record with category error and confidence 0.0
(without raising), not the 0.5 coercion the claim states. -/
theorem c5_confidence_coercion :
    (∀ r : ClassificationResult, ¬(0 ≤ r.confidence ∧ r.confidence ≤ 1) →
      (validate_classification r).confidence = mkRat 1 2) ∧
    (∀ r : ClassificationResult, 0 ≤ r.confidence → r.confidence ≤ 1 →
      (validate_classification r).confidence = r.confidence) ∧
    (∀ text : String,
      parse_lines (split_lines (trimChars text.data)) (initial_result text) = none →
      parse_classification text =
        { category := "error", confidence := 0, is_malicious := false,
          reasoning := "Failed to parse: " ++ String.mk (text.data.take 200) }) := by
  refine ⟨?_, ?_, ?_⟩
  · intro r h
    unfold validate_classification
    by_cases hc : r.category ∈ CATEGORIES <;> simp [hc, h]
  · intro r h0 h1
    unfold validate_classification
    by_cases hc : r.category ∈ CATEGORIES <;> simp [hc, h0, h1]
  · intro text h
    unfold parse_classification
    rw [h]

/-- An out-of-range raw confidence for the C5 witness. -/
def c5_oob : ClassificationResult :=
  { category := "business", confidence := 3, is_malicious := false, reasoning := "x" }

/-- C5 witness: confidence 3.0 is coerced to 0.5, and a concrete
unparseable CONFIDENCE line yields the error record. -/
theorem c5_confidence_coercion_witness :
    ¬(0 ≤ c5_oob.confidence ∧ c5_oob.confidence ≤ 1) ∧
    (validate_classification c5_oob).confidence = mkRat 1 2 ∧
    parse_lines (split_lines (trimChars "CONFIDENCE: maybe".data))
      (initial_result "CONFIDENCE: maybe") = none ∧
    (parse_classification "CONFIDENCE: maybe").category = "error" :=
  ⟨by decide, c5_confidence_coercion.1 c5_oob (by decide), by decide,
   by rw [c5_confidence_coercion.2.2 "CONFIDENCE: maybe" (by decide)]⟩

/-- C6: unknown category coercion — whenever the parsed category (already
lowercased by the line loop) is outside the closed label set, the
validation step stores the fallback label other while the malicious flag
and the reasoning are untouched and the confidence is exactly what its own
range rule yields, independent of the category coercion. -/
theorem c6_category_coercion (r : ClassificationResult) (h : r.category ∉ CATEGORIES) :
    (validate_classification r).category = "other" ∧
    (validate_classification r).is_malicious = r.is_malicious ∧
    (validate_classification r).reasoning = r.reasoning ∧
    (validate_classification r).confidence =
      (if 0 ≤ r.confidence ∧ r.confidence ≤ 1 then r.confidence else mkRat 1 2) := by
  unfold validate_classification
  by_cases hc : 0 ≤ r.confidence ∧ r.confidence ≤ 1 <;> simp [h, hc]

/-- The free-text category of the C6 witness. -/
def c6_clickbait : ClassificationResult :=
  { category := "clickbait", confidence := mkRat 4 5, is_malicious := false,
    reasoning := "x" }

/-- C6 witness: the concrete category clickbait is stored as other with
confidence 0.8 and malicious flag unchanged. -/
theorem c6_category_coercion_witness :
    c6_clickbait.category ∉ CATEGORIES ∧
    (validate_classification c6_clickbait).category = "other" ∧
    (validate_classification c6_clickbait).is_malicious = false ∧
    (validate_classification c6_clickbait).confidence = mkRat 4 5 :=
  ⟨by decide, (c6_category_coercion c6_clickbait (by decide)).1,
   (c6_category_coercion c6_clickbait (by decide)).2.1,
   by
    have h := (c6_category_coercion c6_clickbait (by decide)).2.2.2
    rw [h]
    decide⟩

/-- C7: classification failure is neutralized — a transport error and a
wholly unparseable response both yield the record with category error,
confidence 0.0 and malicious false, without raising (classify is total);
and a normal-mode submission whose classifier call fails this way still
completes successfully, with the error record surfaced in the result and
the fingerprint and sighting rows persisted earlier kept intact (same
sighting identities, same sighting counters). -/
theorem c7_classification_failure :
    (∀ e : String, classify (Except.error e) =
      { category := "error", confidence := 0, is_malicious := false,
        reasoning := "Classification failed: " ++ e }) ∧
    (∀ text : String,
      parse_lines (split_lines (trimChars text.data)) (initial_result text) = none →
      (classify (Except.ok text)).category = "error" ∧
      (classify (Except.ok text)).confidence = 0 ∧
      (classify (Except.ok text)).is_malicious = false) ∧
    (∀ (hash : String → String) (db db1 db2 : DBState) (p : String)
        (loc : Option Location) (ts : Nat) (ip ph : String) (dev : Option String)
        (skip : Bool) (browse : BrowseResult) (e : String) (qr : QRCodeRec)
        (dup : Bool) (s : SightingRec),
      find_or_create_qr hash db p = (qr, dup, db1) →
      add_sighting db1 qr.id (loc.map (fun l => l.latitude))
          (loc.map (fun l => l.longitude)) (loc.map (fun l => l.accuracy))
          ts ip dev ph = (s, db2) →
      (dup = false ∨ skip = false) →
      browse.success = true →
      (process_normal hash db p true loc ts ip ph dev skip browse true
          (classify (Except.error e)) none).1.success = true ∧
      (process_normal hash db p true loc ts ip ph dev skip browse true
          (classify (Except.error e)) none).1.classification =
        some (classify (Except.error e)) ∧
      (process_normal hash db p true loc ts ip ph dev skip browse true
          (classify (Except.error e)) none).2.sightings.map (fun x => x.id) =
        db2.sightings.map (fun x => x.id) ∧
      (process_normal hash db p true loc ts ip ph dev skip browse true
          (classify (Except.error e)) none).2.qr_codes.map (fun r => r.times_found) =
        db2.qr_codes.map (fun r => r.times_found)) := by
  refine ⟨fun e => rfl, ?_, ?_⟩
  · intro text h
    have hc : classify (Except.ok text) = parse_classification text := rfl
    rw [hc]
    unfold parse_classification
    rw [h]
    exact ⟨rfl, rfl, rfl⟩
  · intro hash db db1 db2 p loc ts ip ph dev skip browse e qr dup s h_fc h_as hdup hbs
    have hra : runs_full_analysis true false dup skip = true := by
      rcases hdup with h | h <;> simp [runs_full_analysis, should_analyze, h]
    simp only [process_normal]
    rw [h_fc]
    dsimp only
    rw [h_as]
    dsimp only
    rw [if_pos hra, if_pos hbs]
    by_cases ht : isTruthy browse.screenshot_path = true
    · rw [if_pos ht]
      simp only [classify_step_normal, eq_self_iff_true, if_true]
      refine ⟨rfl, rfl, ?_, ?_⟩
      · rw [update_qr_classification_sightings, attach_screenshot_sighting_ids,
          update_qr_destination_sightings]
      · rw [update_qr_classification_times_found, attach_screenshot_qr_codes,
          update_qr_destination_times_found]
    · rw [if_neg ht]
      simp only [classify_step_normal, eq_self_iff_true, if_true]
      refine ⟨rfl, rfl, ?_, ?_⟩
      · rw [update_qr_classification_sightings, update_qr_destination_sightings]
      · rw [update_qr_classification_times_found, update_qr_destination_times_found]

/-- C7 witness: a concrete transport error and a concrete unparseable
response both neutralize to the error record, and a concrete normal-mode
submission whose classifier fails still succeeds. -/
theorem c7_classification_failure_witness :
    (classify (Except.error "boom")).category = "error" ∧
    parse_lines (split_lines (trimChars "gibberish\nCONFIDENCE: ???".data))
      (initial_result "gibberish\nCONFIDENCE: ???") = none ∧
    (classify (Except.ok "gibberish\nCONFIDENCE: ???")).confidence = 0 ∧
    find_or_create_qr id_hash DBState.empty "https://example.com" =
      (c8w_qr, false, c8w_db1) ∧
    cx_browse.success = true ∧
    (process_normal id_hash DBState.empty "https://example.com" true none 0 "img.jpg"
        "+15551234567" none true cx_browse true (classify (Except.error "boom"))
        none).1.success = true :=
  ⟨by rw [c7_classification_failure.1 "boom"],
   by decide,
   (c7_classification_failure.2.1 "gibberish\nCONFIDENCE: ???" (by decide)).2.1,
   rfl,
   rfl,
   (c7_classification_failure.2.2 id_hash DBState.empty c8w_db1 c8w_db2
      "https://example.com" none 0 "img.jpg" "+15551234567" none true cx_browse
      "boom" c8w_qr false c8w_s rfl rfl (Or.inl rfl) rfl).1⟩

/-- C8: graceful degradation on visit failure — for a URL payload whose
analysis runs and whose visit returns success false (timeout included),
the submission returns the complete result of the failure leaf: success
true with no error, classification none, the failed visit retained under
browse_result, and the database exactly as it stood after the fingerprint
and sighting writes (no destination written, nothing rolled back); the
classifier outcome cr is universally quantified because the classifier is
never consulted on this path. -/
theorem c8_graceful_degradation (hash : String → String) (db db1 db2 : DBState)
    (p : String) (loc : Option Location) (ts : Nat) (ip ph : String)
    (dev : Option String) (skip ce : Bool) (browse : BrowseResult)
    (cr : ClassificationResult) (ar : Option String) (qr : QRCodeRec) (dup : Bool)
    (s : SightingRec)
    (h_fc : find_or_create_qr hash db p = (qr, dup, db1))
    (h_as : add_sighting db1 qr.id (loc.map (fun l => l.latitude))
        (loc.map (fun l => l.longitude)) (loc.map (fun l => l.accuracy))
        ts ip dev ph = (s, db2))
    (hdup : dup = false ∨ skip = false)
    (hbf : browse.success = false) :
    process_normal hash db p true loc ts ip ph dev skip browse ce cr ar =
      (mk_complete_result db2 qr.id dup s loc (some browse) none, db2) ∧
    (mk_complete_result db2 qr.id dup s loc (some browse) none).success = true ∧
    (mk_complete_result db2 qr.id dup s loc (some browse) none).error = none ∧
    (mk_complete_result db2 qr.id dup s loc (some browse) none).classification = none ∧
    (mk_complete_result db2 qr.id dup s loc (some browse) none).browse_result =
      some browse := by
  have hra : runs_full_analysis true false dup skip = true := by
    rcases hdup with h | h <;> simp [runs_full_analysis, should_analyze, h]
  refine ⟨?_, rfl, rfl, rfl, rfl⟩
  simp only [process_normal]
  rw [h_fc]
  dsimp only
  rw [h_as]
  dsimp only
  rw [if_pos hra, hbf]
  simp

/-- C8 witness: a concrete URL submission whose visit times out completes
with no classification and the store kept at the fingerprint-plus-sighting
state. -/
theorem c8_graceful_degradation_witness :
    find_or_create_qr id_hash DBState.empty "https://example.com" =
      (c8w_qr, false, c8w_db1) ∧
    c8w_browse_fail.success = false ∧
    process_normal id_hash DBState.empty "https://example.com" true none 0 "img.jpg"
        "+15551234567" none true c8w_browse_fail true cx_cr none =
      (mk_complete_result c8w_db2 c8w_qr.id false c8w_s none (some c8w_browse_fail) none,
       c8w_db2) :=
  ⟨rfl, rfl,
   (c8_graceful_degradation id_hash DBState.empty c8w_db1 c8w_db2
      "https://example.com" none 0 "img.jpg" "+15551234567" none true true
      c8w_browse_fail cx_cr none c8w_qr false c8w_s rfl rfl (Or.inl rfl) rfl).1⟩

/-- The sighting table after an append is the old table plus the new row. -/
theorem add_sighting_sightings (db : DBState) (qid : Nat) (la lo : Option ℚ)
    (acc : Option String) (ts : Nat) (ip : String) (dev : Option String) (ph : String) :
    (add_sighting db qid la lo acc ts ip dev ph).2.sightings =
      db.sightings ++ [(add_sighting db qid la lo acc ts ip dev ph).1] := rfl

/-- C9 counterexample: on a concrete submission whose screenshot attach
raises, the pipeline does not return a successful result — the
submission-level handler of app.py lines 261-268 turns it into the failure
dict with success false carrying the storage error. -/
theorem c9_counterexample :
    (process_qr_submission id_hash DBState.empty "https://example.com" true none 0
        "img.jpg" "+15551234567" none true cx_browse true cx_cr
        (some "storage error") false).1.success = false ∧
    (process_qr_submission id_hash DBState.empty "https://example.com" true none 0
        "img.jpg" "+15551234567" none true cx_browse true cx_cr
        (some "storage error") false).1.error = some "storage error" :=
  ⟨rfl, rfl⟩

/-- C9 (amended): an error while attaching the screenshot reference is not
swallowed locally — it is caught only by the submission-level exception
handler, so it never propagates as a raised exception to the caller, but
the submission returns the failure result (success false with the error
message) instead of a successful one; the already-committed fingerprint,
sighting and destination writes are kept (the sighting row is present and
every sighting counter is as the fingerprint step left it), and the
classifier is never reached. -/
theorem c9_attach_failure (hash : String → String) (db db1 db2 : DBState)
    (p : String) (loc : Option Location) (ts : Nat) (ip ph : String)
    (dev : Option String) (skip ce : Bool) (browse : BrowseResult)
    (cr : ClassificationResult) (err : String) (qr : QRCodeRec) (dup : Bool)
    (s : SightingRec)
    (h_fc : find_or_create_qr hash db p = (qr, dup, db1))
    (h_as : add_sighting db1 qr.id (loc.map (fun l => l.latitude))
        (loc.map (fun l => l.longitude)) (loc.map (fun l => l.accuracy))
        ts ip dev ph = (s, db2))
    (hdup : dup = false ∨ skip = false)
    (hbs : browse.success = true)
    (htr : isTruthy browse.screenshot_path = true) :
    process_normal hash db p true loc ts ip ph dev skip browse ce cr (some err) =
      ({ success := false, error := some err },
       update_qr_destination db2 qr.id browse.destination_url browse.final_url
         browse.title) ∧
    s ∈ (update_qr_destination db2 qr.id browse.destination_url browse.final_url
      browse.title).sightings ∧
    (update_qr_destination db2 qr.id browse.destination_url browse.final_url
      browse.title).qr_codes.map (fun r => r.times_found) =
      db1.qr_codes.map (fun r => r.times_found) := by
  have hra : runs_full_analysis true false dup skip = true := by
    rcases hdup with h | h <;> simp [runs_full_analysis, should_analyze, h]
  have hs1 : (add_sighting db1 qr.id (loc.map (fun l => l.latitude))
      (loc.map (fun l => l.longitude)) (loc.map (fun l => l.accuracy))
      ts ip dev ph).1 = s := congrArg Prod.fst h_as
  have hs2 : (add_sighting db1 qr.id (loc.map (fun l => l.latitude))
      (loc.map (fun l => l.longitude)) (loc.map (fun l => l.accuracy))
      ts ip dev ph).2 = db2 := congrArg Prod.snd h_as
  refine ⟨?_, ?_, ?_⟩
  · simp only [process_normal]
    rw [h_fc]
    dsimp only
    rw [h_as]
    dsimp only
    rw [if_pos hra, if_pos hbs, if_pos htr]
  · rw [update_qr_destination_sightings, ← hs2, add_sighting_sightings, hs1]
    exact List.mem_append_right _ (List.mem_singleton.mpr rfl)
  · rw [update_qr_destination_times_found, ← hs2, add_sighting_qr_codes]

/-- C9 witness for the amended statement: the concrete failing-attach
submission returns the failure dict while keeping the committed rows. -/
theorem c9_attach_failure_witness :
    isTruthy cx_browse.screenshot_path = true ∧
    cx_browse.success = true ∧
    process_normal id_hash DBState.empty "https://example.com" true none 0 "img.jpg"
        "+15551234567" none true cx_browse true cx_cr (some "storage error") =
      ({ success := false, error := some "storage error" },
       update_qr_destination c8w_db2 c8w_qr.id cx_browse.destination_url
         cx_browse.final_url cx_browse.title) :=
  ⟨rfl, rfl,
   (c9_attach_failure id_hash DBState.empty c8w_db1 c8w_db2 "https://example.com"
      none 0 "img.jpg" "+15551234567" none true true cx_browse cx_cr "storage error"
      c8w_qr false c8w_s rfl rfl (Or.inl rfl) rfl rfl).1⟩

/-- Incrementing the first matching row keeps every sighting counter
positive. -/
theorem times_found_pos_increment (chash : String) (l : List QRCodeRec)
    (h : ∀ r ∈ l, 1 ≤ r.times_found) :
    ∀ r ∈ increment_times_found chash l, 1 ≤ r.times_found := by
  induction l with
  | nil =>
    intro r hr
    simp [increment_times_found] at hr
  | cons a as ih =>
    intro r hr
    have ha := h a (List.mem_cons_self a as)
    have has : ∀ x ∈ as, 1 ≤ x.times_found :=
      fun x hx => h x (List.mem_cons_of_mem a hx)
    unfold increment_times_found at hr
    split at hr
    · rcases List.mem_cons.mp hr with hr | hr
      · subst hr
        exact Nat.le_add_left 1 a.times_found
      · exact has r hr
    · rcases List.mem_cons.mp hr with hr | hr
      · subst hr
        exact ha
      · exact ih has r hr

/-- Resolution keeps every sighting counter positive: a fresh row starts
at 1 and a duplicate is incremented. -/
theorem times_found_pos_find_or_create (hash : String → String) (db : DBState)
    (p : String) (h : ∀ r ∈ db.qr_codes, 1 ≤ r.times_found) :
    ∀ r ∈ (find_or_create_qr hash db p).2.2.qr_codes, 1 ≤ r.times_found := by
  cases hf : db.qr_codes.find? (fun r => r.content_hash == hash p) with
  | some qr =>
    have heq : (find_or_create_qr hash db p).2.2.qr_codes
        = increment_times_found (hash p) db.qr_codes := by
      simp only [find_or_create_qr]
      rw [hf]
    rw [heq]
    exact times_found_pos_increment (hash p) db.qr_codes h
  | none =>
    have heq : (find_or_create_qr hash db p).2.2.qr_codes
        = db.qr_codes ++
          [{ id := db.next_qr_id, content_hash := hash p, qr_content := p }] := by
      simp only [find_or_create_qr]
      rw [hf]
    rw [heq]
    intro r hr
    rcases List.mem_append.mp hr with hr | hr
    · exact h r hr
    · rcases List.mem_singleton.mp hr with rfl
      exact Nat.le_refl 1

/-- Positivity of the sighting counters transfers across any state change
that preserves the multiset of counters. -/
theorem times_found_pos_of_map_eq {l1 l2 : List QRCodeRec}
    (hmap : l2.map (fun r => r.times_found) = l1.map (fun r => r.times_found))
    (h : ∀ r ∈ l1, 1 ≤ r.times_found) : ∀ r ∈ l2, 1 ≤ r.times_found := by
  intro r hr
  have hmem : r.times_found ∈ l2.map (fun r => r.times_found) :=
    List.mem_map_of_mem _ hr
  rw [hmap] at hmem
  rcases List.mem_map.mp hmem with ⟨r1, hr1, heq⟩
  rw [← heq]
  exact h r1 hr1

/-- The classification tail keeps every sighting counter positive. -/
theorem times_found_pos_classify_step (db : DBState) (qid : Nat) (dup : Bool)
    (s : SightingRec) (loc : Option Location) (browse : BrowseResult) (ce : Bool)
    (cr : ClassificationResult) (h : ∀ r ∈ db.qr_codes, 1 ≤ r.times_found) :
    ∀ r ∈ (classify_step_normal db qid dup s loc browse ce cr).2.qr_codes,
      1 ≤ r.times_found := by
  simp only [classify_step_normal]
  split
  · exact times_found_pos_of_map_eq
      (update_qr_classification_times_found db qid cr.category cr.confidence
        cr.is_malicious) h
  · exact h

/-- The whole pipeline keeps every stored sighting counter positive, in
either mode. -/
theorem times_found_pos_process (hash : String → String) (db : DBState) (p : String)
    (isUrl : Bool) (loc : Option Location) (ts : Nat) (ip ph : String)
    (dev : Option String) (skip : Bool) (browse : BrowseResult) (ce : Bool)
    (cr : ClassificationResult) (ar : Option String) (dm : Bool)
    (h : ∀ r ∈ db.qr_codes, 1 ≤ r.times_found) :
    ∀ r ∈ (process_qr_submission hash db p isUrl loc ts ip ph dev skip browse
        ce cr ar dm).2.qr_codes, 1 ≤ r.times_found := by
  have h1 := times_found_pos_find_or_create hash db p h
  unfold process_qr_submission
  split
  · unfold process_debug
    repeat' split
    all_goals exact h
  · simp only [process_normal]
    repeat' split
    all_goals
      first
      | exact times_found_pos_classify_step _ _ _ _ _ _ _ _
          (times_found_pos_of_map_eq (update_qr_destination_times_found _ _ _ _ _) h1)
      | exact times_found_pos_of_map_eq (update_qr_destination_times_found _ _ _ _ _) h1
      | exact h1

/-- C10: debug mode bypasses the store — every debug-mode submission
reports is_duplicate false and no sighting regardless of what the store
contains, its placeholder record keeps times_found 0, while the store
itself only ever holds records with times_found at least 1 (the invariant
is preserved by processing in either mode). -/
theorem c10_debug_placeholder (hash : String → String) (db : DBState) (p : String)
    (isUrl : Bool) (loc : Option Location) (ts : Nat) (ip ph : String)
    (dev : Option String) (skip ce : Bool) (browse : BrowseResult)
    (cr : ClassificationResult) (ar : Option String) :
    (process_qr_submission hash db p isUrl loc ts ip ph dev skip browse ce cr ar true).1.is_duplicate = some false ∧
    (process_qr_submission hash db p isUrl loc ts ip ph dev skip browse ce cr ar true).1.sighting = none ∧
    (∃ m : MockQRCode,
      (process_qr_submission hash db p isUrl loc ts ip ph dev skip browse ce cr ar true).1.qr_code
        = some (ResultQR.mock m) ∧ m.times_found = 0) ∧
    (∀ dm : Bool,
      db.qr_codes.all (fun r => decide (1 ≤ r.times_found)) = true →
      (process_qr_submission hash db p isUrl loc ts ip ph dev skip browse ce cr ar dm).2.qr_codes.all
        (fun r => decide (1 ≤ r.times_found)) = true) := by
  refine ⟨?_, ?_, ?_, ?_⟩
  · have hdbg : process_qr_submission hash db p isUrl loc ts ip ph dev skip browse ce cr ar true
        = process_debug hash db p isUrl loc skip browse ce cr := rfl
    rw [hdbg]
    unfold process_debug
    repeat' split
    all_goals rfl
  · have hdbg : process_qr_submission hash db p isUrl loc ts ip ph dev skip browse ce cr ar true
        = process_debug hash db p isUrl loc skip browse ce cr := rfl
    rw [hdbg]
    unfold process_debug
    repeat' split
    all_goals rfl
  · have hdbg : process_qr_submission hash db p isUrl loc ts ip ph dev skip browse ce cr ar true
        = process_debug hash db p isUrl loc skip browse ce cr := rfl
    rw [hdbg]
    unfold process_debug
    repeat' split
    all_goals exact ⟨_, rfl, rfl⟩
  · intro dm hall
    rw [List.all_eq_true] at hall ⊢
    simp only [decide_eq_true_eq] at hall ⊢
    exact times_found_pos_process hash db p isUrl loc ts ip ph dev skip browse
      ce cr ar dm hall

/-- C10 witness: a concrete debug submission over a store that already
holds the payload still reports a fresh non-duplicate with a zero-count
placeholder, and the stored counters stay positive. -/
theorem c10_debug_placeholder_witness :
    (process_qr_submission id_hash c4_sample_db "payload" true none 0 "img.jpg"
        "+15551234567" none true cx_browse true cx_cr none true).1.is_duplicate
      = some false ∧
    (process_qr_submission id_hash c4_sample_db "payload" true none 0 "img.jpg"
        "+15551234567" none true cx_browse true cx_cr none true).1.sighting = none ∧
    c4_sample_db.qr_codes.all (fun r => decide (1 ≤ r.times_found)) = true ∧
    (process_qr_submission id_hash c4_sample_db "payload" true none 0 "img.jpg"
        "+15551234567" none true cx_browse true cx_cr none false).2.qr_codes.all
      (fun r => decide (1 ≤ r.times_found)) = true :=
  ⟨(c10_debug_placeholder id_hash c4_sample_db "payload" true none 0 "img.jpg"
      "+15551234567" none true true cx_browse cx_cr none).1,
   (c10_debug_placeholder id_hash c4_sample_db "payload" true none 0 "img.jpg"
      "+15551234567" none true true cx_browse cx_cr none).2.1,
   by decide,
   (c10_debug_placeholder id_hash c4_sample_db "payload" true none 0 "img.jpg"
      "+15551234567" none true true cx_browse cx_cr none).2.2.2 false (by decide)⟩
